import Mathlib

/-!
# Verification of the llm-gateway rate governor and dispatcher

Shallow embedding of `src/app.py` (class `RateLimiter`, the selector
`get_api_provider`, the dispatch handlers and the `/v1/{path}` route).
Timestamps are modelled as natural numbers counting seconds of wall-clock
time; Python `datetime` subtraction that may go negative is modelled over
`Int` where the sign matters.
-/

namespace Gateway

/-- Association-list lookup, modelling a Python `dict` read (`d[k]` / `k in d`). -/
def lookupA {α : Type} : List (String × α) → String → Option α
  | [], _ => none
  | (k, v) :: rest, key => if k = key then some v else lookupA rest key

/-- Association-list update, modelling Python `d[k] = v` (insertion order kept,
a fresh key goes to the end). -/
def updateA {α : Type} : List (String × α) → String → α → List (String × α)
  | [], key, v => [(key, v)]
  | (k, w) :: rest, key, v =>
    if k = key then (k, v) :: rest else (k, w) :: updateA rest key v

/-- Per-provider counters: `self.counters[api_provider]` in `RateLimiter`.
`rpm` holds `(timestamp, 1)` events, `tpm` holds `(timestamp, token_count)`. -/
structure Counters where
  rpm : List (Nat × Nat)
  tpm : List (Nat × Nat)
  rpd : Nat
deriving DecidableEq

/-- The optional per-provider limits record from `config.yaml`
(`limits: {rpm?, tpm?, rpd?, tpr?}`; an absent key means unlimited). -/
structure Limits where
  rpm : Option Nat
  tpm : Option Nat
  rpd : Option Nat
  tpr : Option Nat
deriving DecidableEq

/-- The two mutable dictionaries of `RateLimiter`. -/
structure LimiterState where
  counters : List (String × Counters)
  error_counters : List (String × List (Nat × Nat))
deriving DecidableEq

/-- The fresh counters entry created lazily inside `check_limit`. -/
def freshCounters : Counters := { rpm := [], tpm := [], rpd := 0 }

/-- The provider's counters as seen from outside (`{}`-fresh when absent). -/
def viewCounters (st : LimiterState) (p : String) : Counters :=
  (lookupA st.counters p).getD freshCounters

/-- The provider's error ledger as seen from outside (empty when absent). -/
def viewErrors (st : LimiterState) (p : String) : List (Nat × Nat) :=
  (lookupA st.error_counters p).getD []

/-- The `while` loops of `check_limit`: drop leading entries with
`now - t > timedelta(minutes=1)`.  (With timestamps never ahead of `now`,
truncated `Nat` subtraction agrees with `datetime` subtraction.) -/
def pruneWindow (now : Nat) : List (Nat × Nat) → List (Nat × Nat)
  | [] => []
  | (t, v) :: rest =>
    if now - t > 60 then pruneWindow now rest else (t, v) :: rest

/-- The 24-hour filter used on error ledgers:
keep entries with `timestamp > now - timedelta(hours=24)`.  The cutoff may be
negative early in time, hence the `Int` comparison. -/
def pruneErrors (now : Nat) (l : List (Nat × Nat)) : List (Nat × Nat) :=
  l.filter (fun e => decide ((e.1 : Int) > (now : Int) - 86400))

/-- Sum of the second components of a window (`sum(t for _, t in ...)`). -/
def sumTokens (w : List (Nat × Nat)) : Nat := (w.map Prod.snd).sum

/-- `max(timestamp for timestamp, _ in ...)` over a nonempty ledger. -/
def maxTs (l : List (Nat × Nat)) : Nat := l.foldl (fun a e => max a e.1) 0

/-- `'rpm' in limits and len(counters['rpm']) >= limits['rpm']`. -/
def rpmExceeded (limits : Limits) (cs : Counters) : Bool :=
  match limits.rpm with
  | some r => decide (cs.rpm.length ≥ r)
  | none => false

/-- `'tpm' in limits and sum(tpm) + token_count > limits['tpm']`. -/
def tpmExceeded (limits : Limits) (cs : Counters) (token_count : Nat) : Bool :=
  match limits.tpm with
  | some l => decide (sumTokens cs.tpm + token_count > l)
  | none => false

/-- `'tpr' in limits and token_count > limits['tpr']`. -/
def tprExceeded (limits : Limits) (token_count : Nat) : Bool :=
  match limits.tpr with
  | some l => decide (token_count > l)
  | none => false

/-- `'rpd' in limits and counters['rpd'] >= limits['rpd']`. -/
def rpdExceeded (limits : Limits) (cs : Counters) : Bool :=
  match limits.rpd with
  | some r => decide (cs.rpd ≥ r)
  | none => false

/-- The interpolated reason string of the TPR branch. -/
def tprReason (token_count l : Nat) : String :=
  s!"Token per request limit exceeded: {token_count} > {l}"

/-- `RateLimiter.check_limit` (src/app.py:84-121).  Creates the provider entry
lazily, prunes both minute windows in place (the mutation persists even when
the check rejects), then tests RPM, TPM, TPR, RPD in that order. -/
def check_limit (st : LimiterState) (api_provider : String) (limits : Limits)
    (token_count : Nat) (now : Nat) : (Bool × String) × LimiterState :=
  let cs0 := (lookupA st.counters api_provider).getD freshCounters
  let cs : Counters :=
    { cs0 with rpm := pruneWindow now cs0.rpm, tpm := pruneWindow now cs0.tpm }
  let st' : LimiterState :=
    { st with counters := updateA st.counters api_provider cs }
  let verdict : Bool × String :=
    if rpmExceeded limits cs then (false, "RPM limit exceeded")
    else if tpmExceeded limits cs token_count then (false, "TPM limit exceeded")
    else if tprExceeded limits token_count then
      (false, tprReason token_count (limits.tpr.getD 0))
    else if rpdExceeded limits cs then (false, "RPD limit exceeded")
    else (true, "")
  (verdict, st')

/-- `RateLimiter.increment` (src/app.py:123-129).  `self.counters[api_provider]`
is a plain dict access: a provider never seen by `check_limit` raises
`KeyError`, modelled as `none`. -/
def increment (st : LimiterState) (api_provider : String) (token_count : Nat)
    (now : Nat) : Option LimiterState :=
  match lookupA st.counters api_provider with
  | none => none
  | some cs =>
    let cs' : Counters :=
      { cs with rpm := cs.rpm ++ [(now, 1)]
              , tpm := cs.tpm ++ [(now, token_count)]
              , rpd := cs.rpd + 1 }
    some { st with counters := updateA st.counters api_provider cs' }

/-- `RateLimiter.increment_error` (src/app.py:137-158): create the ledger if
absent, prune to 24h, append `(now, 1)`, return the new total. -/
def increment_error (st : LimiterState) (api_provider : String) (now : Nat) :
    LimiterState × Nat :=
  let l0 := (lookupA st.error_counters api_provider).getD []
  let l := pruneErrors now l0
  let current := sumTokens l
  ({ st with error_counters := updateA st.error_counters api_provider (l ++ [(now, 1)]) },
   current + 1)

/-- `RateLimiter.is_error_limited` (src/app.py:160-192).  Returns
`(limited, remaining_minutes)` and stores the pruned ledger back. -/
def is_error_limited (st : LimiterState) (api_provider : String) (now : Nat) :
    (Bool × Nat) × LimiterState :=
  match lookupA st.error_counters api_provider with
  | none => ((false, 0), st)
  | some l0 =>
    if l0.isEmpty then ((false, 0), st)
    else
      let l := pruneErrors now l0
      let st' : LimiterState :=
        { st with error_counters := updateA st.error_counters api_provider l }
      if l.isEmpty then ((false, 0), st')
      else
        let n := sumTokens l
        let tLast := maxTs l
        let limitDuration := min (n * 10) 1440
        let limitEnd := tLast + limitDuration * 60
        if now < limitEnd then ((true, (limitEnd - now) / 60), st')
        else ((false, 0), st')

/-- The two configuration tables read from `config.yaml`:
`API_PROVIDER` (provider-id → limits; base_url/api_key are not needed by the
governor claims) and `MODEL_CONFIG` (model → ordered `(provider-id, enable)`
bindings; the optional alias is irrelevant to selection). -/
structure Config where
  apiProvider : List (String × Limits)
  modelConfig : List (String × List (String × Bool))

/-- Outcome of the selection pipeline: either a provider id, or the HTTP
status of the exception that escaped (`HTTPException` 404/429, or 500 for an
unhandled error such as a provider id missing from `API_PROVIDER`). -/
inductive SelectResult where
  | ok (provider : String)
  | httpError (status : Nat)
deriving DecidableEq

/-- The `for api_provider in api_providers` loop of `get_api_provider`
(src/app.py:542-565): read the provider config (`KeyError` → unhandled → 500),
skip when `enable is False`, skip when error-limited, skip when `check_limit`
rejects, otherwise `increment` and select. -/
def providerLoop (cfg : Config) (token_count now : Nat) :
    List (String × Bool) → LimiterState → SelectResult × LimiterState
  | [], st => (.httpError 429, st)
  | (p, enable) :: rest, st =>
    match lookupA cfg.apiProvider p with
    | none => (.httpError 500, st)
    | some limits =>
      if enable = false then providerLoop cfg token_count now rest st
      else
        let r1 := is_error_limited st p now
        if r1.1.1 then providerLoop cfg token_count now rest r1.2
        else
          let r2 := check_limit r1.2 p limits token_count now
          if r2.1.1 then
            match increment r2.2 p token_count now with
            | some st' => (.ok p, st')
            | none => (.httpError 500, r2.2)
          else providerLoop cfg token_count now rest r2.2

/-- `get_api_provider` (src/app.py:529-573), with the token count taken as a
parameter (the tiktoken estimator is deterministic and not itself under
claim).  An unknown model raises `HTTPException(404)`; if no binding is
selected the loop falls out and raises `HTTPException(429)`. -/
def get_api_provider (cfg : Config) (model : String) (token_count : Nat)
    (st : LimiterState) (now : Nat) : SelectResult × LimiterState :=
  match lookupA cfg.modelConfig model with
  | none => (.httpError 404, st)
  | some bindings => providerLoop cfg token_count now bindings st

/-- Value of the `api_provider` variable after the `auto` loop of
`handle_post_request`: `none` models the variable never being assigned
(the loop body never ran — a `NameError`, hence HTTP 500 downstream). -/
inductive AutoResult where
  | picked (provider : Option String)
  | httpError (status : Nat)
deriving DecidableEq

/-- The `for model in MODEL_CONFIG` loop of the `auto` branch
(src/app.py:597-601).  `get_api_provider` either raises (the exception
propagates) or returns a provider id; the loop breaks on any truthy value,
so only an empty-string provider id would let it continue. -/
def autoLoop (cfg : Config) (token_count now : Nat) :
    List String → LimiterState → Option String → AutoResult × LimiterState
  | [], st, last => (.picked last, st)
  | m :: rest, st, _ =>
    match get_api_provider cfg m token_count st now with
    | (.httpError e, st') => (.httpError e, st')
    | (.ok p, st') =>
      if p = "" then autoLoop cfg token_count now rest st' (some p)
      else (.picked (some p), st')

/-- Python `s.startswith(pre)`, as a prefix test on the character sequence. -/
def strStartsWith (s pre : String) : Bool := pre.data.isPrefixOf s.data

/-- The request body as far as routing is concerned: `request.json()` either
raises (`invalidJson`) or yields a JSON object whose `model` field may be
absent (`request_body.get("model", "")`) and whose `stream` flag defaults to
false. -/
inductive ReqBody where
  | invalidJson
  | jsonBody (model : Option String) (stream : Bool)

/-- The selection phase of `handle_post_request` (src/app.py:580-606): parse
the body (a JSON error is caught by `except Exception` → HTTP 500), default
the model to `""`, run the `auto` loop or a single `get_api_provider`, then
re-check `api_provider not in API_PROVIDER` → 404.  Dispatch to the upstream
is modelled separately. -/
def handle_post_select (cfg : Config) (body : ReqBody) (token_count : Nat)
    (st : LimiterState) (now : Nat) : SelectResult × LimiterState :=
  match body with
  | .invalidJson => (.httpError 500, st)
  | .jsonBody m _stream =>
    let model := m.getD ""
    if strStartsWith model "auto" then
      match autoLoop cfg token_count now (cfg.modelConfig.map Prod.fst) st none with
      | (.httpError e, st') => (.httpError e, st')
      | (.picked none, st') => (.httpError 500, st')
      | (.picked (some p), st') =>
        if (lookupA cfg.apiProvider p).isNone then (.httpError 404, st')
        else (.ok p, st')
    else
      match get_api_provider cfg model token_count st now with
      | (.httpError e, st') => (.httpError e, st')
      | (.ok p, st') =>
        if (lookupA cfg.apiProvider p).isNone then (.httpError 404, st')
        else (.ok p, st')

/-- What the buffered upstream POST did: completed with a status and body
(httpx does not raise on 4xx/5xx statuses by itself), or raised a
transport/other exception. -/
inductive UpstreamOutcome where
  | httpResponse (status : Nat) (body : String)
  | transportError (msg : String)

/-- The wrapped JSON body built in the exception handlers of
`handle_non_streaming_request`. -/
def choicesEnvelope (content : String) : String :=
  "\x7b\"choices\": [\x7b\"message\": \x7b\"role\": \"assistant\", \"content\": \""
    ++ content ++ "\"\x7d\x7d]\x7d"

/-- `handle_non_streaming_request` (src/app.py:427-452), returning the
client-visible `(status, body)` and the limiter state.  The call
`response.raise_for_status()` is commented out in the source, so a response
with status ≥ 400 raises no `httpx.HTTPStatusError`; the
`except httpx.HTTPStatusError` branch — the only one that calls
`rate_limiter.increment_error` — is unreachable, and the response is returned
with the upstream status code and the limiter untouched.  Any other exception
is answered with status 500 and a wrapped body, again without touching the
limiter. -/
def handle_non_streaming_request (st : LimiterState) (api_provider : String)
    (out : UpstreamOutcome) : (Nat × String) × LimiterState :=
  match out with
  | .httpResponse status body => ((status, body), st)
  | .transportError msg => ((500, choicesEnvelope msg), st)

/-- What the streaming upstream interaction did, as observed by the
generator body of `handle_streaming_request`. -/
inductive StreamOutcome where
  /-- an exception before any chunk was produced (connect failure etc.) -/
  | connectError (msg : String)
  /-- upstream responded with `status ≥ 400` and this (decoded) error body -/
  | upstreamError (status : Nat) (body : String)
  /-- upstream responded with `status < 400` and streamed these chunks -/
  | streamed (status : Nat) (chunks : List String)
  /-- an exception after these chunks had been forwarded -/
  | abortedAfter (status : Nat) (chunks : List String) (msg : String)

/-- `json.dumps({"error": str(e)})` in the exception handler. -/
def errorJson (msg : String) : String :=
  "\x7b\"error\": \"" ++ msg ++ "\"\x7d"

/-- The generator body `generate_stream_response` (src/app.py:343-423) in
passthrough mode: the chunks it yields, the value the `response_status`
context variable holds after it finishes, and the limiter state (an upstream
status ≥ 400 records one error). -/
def generate_stream_response (st : LimiterState) (api_provider : String)
    (out : StreamOutcome) (now : Nat) : List String × Nat × LimiterState :=
  match out with
  | .connectError msg => ([errorJson msg], 500, st)
  | .upstreamError status body =>
    ([body], status, (increment_error st api_provider now).1)
  | .streamed status chunks => (chunks, status, st)
  | .abortedAfter _ chunks msg => (chunks ++ [errorJson msg], 500, st)

/-- `handle_streaming_request` (src/app.py:338-424), returning the status
code the client sees together with the generator's observable effects.
`StreamingResponse(generate_stream_response(), media_type=...,
status_code=response_status.get())` evaluates its `status_code` argument when
the `StreamingResponse` is constructed — before the generator body has run a
single step — so it always reads the context variable's initial value `200`;
the `response_status.set(...)` calls inside the generator happen only later,
while the already-constructed response is being iterated, and are never read
back. -/
def handle_streaming_request (st : LimiterState) (api_provider : String)
    (out : StreamOutcome) (now : Nat) : Nat × (List String × Nat × LimiterState) :=
  let responseStatusInitial := 200
  (responseStatusInitial, generate_stream_response st api_provider out now)

end Gateway

namespace Gateway

theorem lookupA_updateA_self {α : Type} (l : List (String × α)) (k : String) (v : α) :
    lookupA (updateA l k v) k = some v := by
  induction l with
  | nil => simp [lookupA, updateA]
  | cons hd tl ih =>
    obtain ⟨k', w⟩ := hd
    by_cases h : k' = k
    · simp [lookupA, updateA, h]
    · simp [lookupA, updateA, h, ih]

theorem lookupA_updateA_other {α : Type} (l : List (String × α)) (k k' : String)
    (v : α) (h : k ≠ k') : lookupA (updateA l k v) k' = lookupA l k' := by
  induction l with
  | nil => simp [lookupA, updateA, h]
  | cons hd tl ih =>
    obtain ⟨k₀, w⟩ := hd
    by_cases h0 : k₀ = k
    · subst h0
      simp [lookupA, updateA, h]
    · simp [lookupA, updateA, h0, ih]

theorem pruneWindow_suffix (now : Nat) (w : List (Nat × Nat)) :
    List.IsSuffix (pruneWindow now w) w := by
  induction w with
  | nil => simp [pruneWindow]
  | cons hd tl ih =>
    obtain ⟨t, v⟩ := hd
    by_cases h : now - t > 60
    · simpa [pruneWindow, h] using ih.trans (List.suffix_cons _ _)
    · simp [pruneWindow, h]

theorem sumTokens_eq_length {l : List (Nat × Nat)} (h : ∀ e ∈ l, e.2 = 1) :
    sumTokens l = l.length := by
  induction l with
  | nil => rfl
  | cons hd tl ih =>
    have h1 : hd.2 = 1 := h hd (List.mem_cons_self _ _)
    have h2 : sumTokens tl = tl.length :=
      ih (fun e he => h e (List.mem_cons_of_mem _ he))
    simp [sumTokens] at h2 ⊢
    omega

theorem mem_of_mem_pruneErrors {now : Nat} {l : List (Nat × Nat)}
    {e : Nat × Nat} (h : e ∈ pruneErrors now l) : e ∈ l :=
  (List.mem_filter.mp h).1

theorem is_error_limited_counters (st : LimiterState) (p : String) (now : Nat) :
    ((is_error_limited st p now).2).counters = st.counters := by
  unfold is_error_limited
  cases lookupA st.error_counters p with
  | none => rfl
  | some l0 =>
    by_cases h : l0.isEmpty = true
    · simp [h]
    · simp only [Bool.not_eq_true] at h
      simp only [h, Bool.false_eq_true, if_false]
      by_cases h2 : (pruneErrors now l0).isEmpty = true
      · simp [h2]
      · simp only [Bool.not_eq_true] at h2
        simp only [h2, Bool.false_eq_true, if_false]
        split <;> rfl

end Gateway

namespace Gateway

/-- Configuration of the C2 scenario: model `A` bound to provider `P1`
(`rpm=1`) and model `B` bound to provider `P2` (`rpm=10`). -/
def cfgAutoScenario : Config :=
  ⟨[("P1", ⟨some 1, none, none, none⟩), ("P2", ⟨some 10, none, none, none⟩)],
   [("A", [("P1", true)]), ("B", [("P2", true)])]⟩

/-- C1: in buffered mode an upstream response with status ≥ 400 is returned
to the client with the upstream status code, but `record_error` is never
called: `response.raise_for_status()` is commented out in the source, so the
`except httpx.HTTPStatusError` branch holding `increment_error` is dead.
Evaluated at the spec's own scenario (upstream 429, body `{"error":"rate"}`):
the status is mirrored, yet the limiter state is untouched and the provider's
error ledger stays empty — the claim's "record_error(provider) exactly once"
fails on the code. -/
theorem C1_buffered_429_returns_status_without_record_error :
    handle_non_streaming_request (⟨[], []⟩ : LimiterState) "P1"
        (.httpResponse 429 "\x7b\"error\":\"rate\"\x7d")
      = ((429, "\x7b\"error\":\"rate\"\x7d"), (⟨[], []⟩ : LimiterState))
    ∧ viewErrors (handle_non_streaming_request (⟨[], []⟩ : LimiterState) "P1"
        (.httpResponse 429 "\x7b\"error\":\"rate\"\x7d")).2 "P1" = [] :=
  ⟨rfl, rfl⟩

/-- C2: in the `auto` branch the selection does NOT fall through to the next
model.  In the spec's own scenario (model `A` → `P1` with `rpm=1`, model `B`
→ `P2` with `rpm=10`), the first `auto` request selects `P1`; the second
`auto` request hits `A`'s RPM limit, `get_api_provider` raises
`HTTPException(429)` and the exception propagates out of the loop — the
client receives 429 and `B`/`P2` is never consulted, contradicting the
claimed fall-through. -/
theorem C2_auto_second_request_429_not_P2 :
    (handle_post_select cfgAutoScenario (.jsonBody (some "auto") false) 0
        (⟨[], []⟩ : LimiterState) 0).1 = .ok "P1"
    ∧ (handle_post_select cfgAutoScenario (.jsonBody (some "auto") false) 0
        (handle_post_select cfgAutoScenario (.jsonBody (some "auto") false) 0
          (⟨[], []⟩ : LimiterState) 0).2 10).1 = .httpError 429
    ∧ (handle_post_select cfgAutoScenario (.jsonBody (some "auto") false) 0
        (handle_post_select cfgAutoScenario (.jsonBody (some "auto") false) 0
          (⟨[], []⟩ : LimiterState) 0).2 10).1 ≠ .ok "P2" :=
  ⟨rfl, rfl, by decide⟩

/-- C7: the status code of a streaming response never mirrors the upstream
error and is never 500 on a mid-stream exception: `status_code =
response_status.get()` is evaluated when the `StreamingResponse` is
constructed, before the generator has run, so the client always receives
200.  Evaluated at an upstream 429 and at a mid-stream exception; the third
conjunct shows the generator did set the context variable to 429, but the
value is never read back. -/
theorem C7_streaming_status_always_200 :
    (handle_streaming_request (⟨[], []⟩ : LimiterState) "P1"
        (.upstreamError 429 "\x7b\"error\":\"rate\"\x7d") 0).1 = 200
    ∧ (handle_streaming_request (⟨[], []⟩ : LimiterState) "P1"
        (.abortedAfter 200 ["data: x"] "boom") 0).1 = 200
    ∧ (generate_stream_response (⟨[], []⟩ : LimiterState) "P1"
        (.upstreamError 429 "\x7b\"error\":\"rate\"\x7d") 0).2.1 = 429 :=
  ⟨rfl, rfl, rfl⟩

end Gateway

namespace Gateway

/-- C4: with `tpm = L` configured and no other limit binding, `check_limit`
rejects with the TPM reason exactly when the tokens in the pruned tpm window
plus the request's token count strictly exceed `L`. -/
theorem C4_tpm_ceiling (st : LimiterState) (p : String) (L t now : Nat) :
    (check_limit st p ⟨none, some L, none, none⟩ t now).1
        = (false, "TPM limit exceeded")
      ↔ sumTokens (pruneWindow now (viewCounters st p).tpm) + t > L := by
  unfold check_limit viewCounters
  by_cases h : sumTokens (pruneWindow now ((lookupA st.counters p).getD freshCounters).tpm) + t > L
  · simp [rpmExceeded, tpmExceeded, tprExceeded, rpdExceeded, h]
  · simp [rpmExceeded, tpmExceeded, tprExceeded, rpdExceeded, h]

/-- C8: `check_limit` (admission) never records usage on the provider it is
called for: the provider's `rpd` is unchanged, and the stored `rpm`/`tpm`
windows are exactly the pruned versions of the previous ones — suffixes of
the old windows, so nothing was appended; the error ledger is untouched as
well.  Usage is recorded only by `increment`. -/
theorem C8_admit_records_no_usage (st : LimiterState) (p : String)
    (limits : Limits) (tc now : Nat) :
    (viewCounters (check_limit st p limits tc now).2 p).rpd
        = (viewCounters st p).rpd
    ∧ (viewCounters (check_limit st p limits tc now).2 p).rpm
        = pruneWindow now (viewCounters st p).rpm
    ∧ (viewCounters (check_limit st p limits tc now).2 p).tpm
        = pruneWindow now (viewCounters st p).tpm
    ∧ List.IsSuffix (pruneWindow now (viewCounters st p).rpm) (viewCounters st p).rpm
    ∧ List.IsSuffix (pruneWindow now (viewCounters st p).tpm) (viewCounters st p).tpm
    ∧ ((check_limit st p limits tc now).2).error_counters = st.error_counters := by
  have hview : viewCounters (check_limit st p limits tc now).2 p
      = { (viewCounters st p) with
            rpm := pruneWindow now (viewCounters st p).rpm
          , tpm := pruneWindow now (viewCounters st p).tpm } := by
    unfold check_limit viewCounters
    simp [lookupA_updateA_self]
  refine ⟨?_, ?_, ?_, pruneWindow_suffix now _, pruneWindow_suffix now _, rfl⟩
  · rw [hview]
  · rw [hview]
  · rw [hview]

/-- C10: `increment` (commit) is partial in the provider: if a provider id
was never passed to `check_limit`, the `self.counters[api_provider]` access
raises `KeyError` (modelled as `none`), while after any `check_limit` call
on that provider the entry exists and `increment` succeeds. -/
theorem C10_increment_keyerror_without_admit (st : LimiterState) (p : String)
    (tc now tc2 now2 : Nat) (limits : Limits)
    (h : lookupA st.counters p = none) :
    increment st p tc now = none
    ∧ (increment (check_limit st p limits tc2 now2).2 p tc now).isSome = true := by
  constructor
  · simp [increment, h]
  · unfold check_limit increment
    simp [lookupA_updateA_self]

/-- Closed instance of C10 at a fresh limiter: committing to a never-admitted
provider raises, and after one admission it succeeds. -/
theorem C10_increment_keyerror_witness :
    lookupA (⟨[], []⟩ : LimiterState).counters "P1" = none
    ∧ (increment (⟨[], []⟩ : LimiterState) "P1" 5 0 = none
       ∧ (increment (check_limit (⟨[], []⟩ : LimiterState) "P1"
            ⟨none, none, none, none⟩ 0 0).2 "P1" 5 0).isSome = true) :=
  ⟨rfl, C10_increment_keyerror_without_admit (⟨[], []⟩ : LimiterState) "P1"
    5 0 0 0 ⟨none, none, none, none⟩ rfl⟩

end Gateway


namespace Gateway

/-- The counters entry after one `increment`: `(now, 1)` appended to the rpm
window, `(now, token_count)` appended to the tpm window, `rpd` bumped. -/
def bumpCounters (cs : Counters) (t tok : Nat) : Counters :=
  { cs with rpm := cs.rpm ++ [(t, 1)]
          , tpm := cs.tpm ++ [(t, tok)]
          , rpd := cs.rpd + 1 }

/-- A sequence of `increment` (commit) calls for one provider, each with its
own `(timestamp, token_count)`; fails as soon as one call raises. -/
def commitSeq (p : String) : List (Nat × Nat) → LimiterState → Option LimiterState
  | [], st => some st
  | (t, tok) :: rest, st =>
    match increment st p tok t with
    | none => none
    | some st' => commitSeq p rest st'

theorem increment_eq_some {st : LimiterState} {p : String} {cs : Counters}
    (h : lookupA st.counters p = some cs) (tok t : Nat) :
    increment st p tok t
      = some { st with counters := updateA st.counters p (bumpCounters cs t tok) } := by
  unfold increment bumpCounters
  rw [h]

theorem commitSeq_accumulates (p : String) (l : List (Nat × Nat)) :
    ∀ st : LimiterState, (lookupA st.counters p).isSome = true →
    ∃ st', commitSeq p l st = some st'
      ∧ (viewCounters st' p).rpm.length = (viewCounters st p).rpm.length + l.length
      ∧ sumTokens (viewCounters st' p).tpm
          = sumTokens (viewCounters st p).tpm + (l.map Prod.snd).sum
      ∧ (viewCounters st' p).rpd = (viewCounters st p).rpd + l.length := by
  induction l with
  | nil =>
    intro st h
    exact ⟨st, rfl, by simp, by simp, by simp⟩
  | cons hd tl ih =>
    intro st h
    obtain ⟨t, tok⟩ := hd
    obtain ⟨cs, hcs⟩ := Option.isSome_iff_exists.mp h
    have hinc := increment_eq_some hcs tok t
    set st₁ : LimiterState :=
      { st with counters := updateA st.counters p (bumpCounters cs t tok) } with hst₁
    have hmem₁ : (lookupA st₁.counters p).isSome = true := by
      simp [hst₁, lookupA_updateA_self]
    have hv₁ : viewCounters st₁ p = bumpCounters cs t tok := by
      simp [viewCounters, hst₁, lookupA_updateA_self]
    have hv : viewCounters st p = cs := by simp [viewCounters, hcs]
    obtain ⟨st', hseq, h1, h2, h3⟩ := ih st₁ hmem₁
    refine ⟨st', ?_, ?_, ?_, ?_⟩
    · simp [commitSeq, hinc, hseq]
    · rw [h1, hv₁, hv]
      simp [bumpCounters]
      omega
    · rw [h2, hv₁, hv]
      simp [bumpCounters, sumTokens]
      omega
    · rw [h3, hv₁, hv]
      simp [bumpCounters]
      omega

/-- C5: starting from a state in which provider `p` exists (admission has run
at least once) and both of its minute windows are empty, a sequence of `N`
commit calls with token counts `t_i` leaves `sum(tpm_window) = Σ t_i`,
`len(rpm_window) = N`, and `rpd` increased by exactly `N`.  `increment` never
prunes, so this holds for any timestamps — in particular for a sequence of
commits within one 60-second window, as the claim states. -/
theorem C5_commit_monotonicity (p : String) (l : List (Nat × Nat))
    (st : LimiterState)
    (hmem : (lookupA st.counters p).isSome = true)
    (hrpm : (viewCounters st p).rpm = [])
    (htpm : (viewCounters st p).tpm = []) :
    (commitSeq p l st).isSome = true
    ∧ sumTokens (viewCounters ((commitSeq p l st).getD st) p).tpm
        = (l.map Prod.snd).sum
    ∧ (viewCounters ((commitSeq p l st).getD st) p).rpm.length = l.length
    ∧ (viewCounters ((commitSeq p l st).getD st) p).rpd
        = (viewCounters st p).rpd + l.length := by
  obtain ⟨st', hseq, h1, h2, h3⟩ := commitSeq_accumulates p l st hmem
  rw [hseq]
  refine ⟨rfl, ?_, ?_, ?_⟩
  · simpa [htpm, sumTokens] using h2
  · simpa [hrpm] using h1
  · simpa using h3

/-- Closed instance of C5: a fresh provider entry, three commits of 5, 7 and
11 tokens; the tpm window sums to 23, the rpm window has length 3 and `rpd`
went from 0 to 3. -/
theorem C5_commit_monotonicity_witness :
    (lookupA (⟨[("p1", ⟨[], [], 0⟩)], []⟩ : LimiterState).counters "p1").isSome = true
    ∧ (viewCounters (⟨[("p1", ⟨[], [], 0⟩)], []⟩ : LimiterState) "p1").rpm = []
    ∧ (viewCounters (⟨[("p1", ⟨[], [], 0⟩)], []⟩ : LimiterState) "p1").tpm = []
    ∧ ((commitSeq "p1" [(0, 5), (10, 7), (20, 11)]
          (⟨[("p1", ⟨[], [], 0⟩)], []⟩ : LimiterState)).isSome = true
       ∧ sumTokens (viewCounters ((commitSeq "p1" [(0, 5), (10, 7), (20, 11)]
            (⟨[("p1", ⟨[], [], 0⟩)], []⟩ : LimiterState)).getD
            (⟨[("p1", ⟨[], [], 0⟩)], []⟩ : LimiterState)) "p1").tpm
          = ([(0, 5), (10, 7), (20, 11)].map Prod.snd).sum
       ∧ (viewCounters ((commitSeq "p1" [(0, 5), (10, 7), (20, 11)]
            (⟨[("p1", ⟨[], [], 0⟩)], []⟩ : LimiterState)).getD
            (⟨[("p1", ⟨[], [], 0⟩)], []⟩ : LimiterState)) "p1").rpm.length
          = [(0, 5), (10, 7), (20, 11)].length
       ∧ (viewCounters ((commitSeq "p1" [(0, 5), (10, 7), (20, 11)]
            (⟨[("p1", ⟨[], [], 0⟩)], []⟩ : LimiterState)).getD
            (⟨[("p1", ⟨[], [], 0⟩)], []⟩ : LimiterState)) "p1").rpd
          = (viewCounters (⟨[("p1", ⟨[], [], 0⟩)], []⟩ : LimiterState) "p1").rpd
              + [(0, 5), (10, 7), (20, 11)].length) :=
  ⟨rfl, rfl, rfl,
   C5_commit_monotonicity "p1" [(0, 5), (10, 7), (20, 11)]
     (⟨[("p1", ⟨[], [], 0⟩)], []⟩ : LimiterState) rfl rfl rfl⟩

end Gateway

namespace Gateway

/-- C3: after pruning to the last 24 hours, for a nonempty ledger whose
entries all carry count 1 (the only kind `record_error` writes), the provider
is reported limited exactly while `now < t_last + min(10 · n, 1440)` minutes,
where `n` is the number of pruned events and `t_last` their newest timestamp;
while limited, the reported remaining minutes are the integer-truncated
minutes until that bound. -/
theorem C3_error_state_characterisation (st : LimiterState) (p : String)
    (now : Nat)
    (h1 : ∀ e ∈ viewErrors st p, e.2 = 1)
    (h2 : pruneErrors now (viewErrors st p) ≠ []) :
    ((is_error_limited st p now).1.1 = true ↔
      now < maxTs (pruneErrors now (viewErrors st p))
        + min (10 * (pruneErrors now (viewErrors st p)).length) 1440 * 60)
    ∧ ((is_error_limited st p now).1.1 = true →
       (is_error_limited st p now).1.2 =
         (maxTs (pruneErrors now (viewErrors st p))
           + min (10 * (pruneErrors now (viewErrors st p)).length) 1440 * 60
           - now) / 60) := by
  cases hl : lookupA st.error_counters p with
  | none =>
    exact absurd (by simp [viewErrors, hl, pruneErrors]) h2
  | some l0 =>
    have hv : viewErrors st p = l0 := by simp [viewErrors, hl]
    rw [hv] at h1 h2 ⊢
    have hne : l0.isEmpty = false := by
      cases l0 with
      | nil => exact absurd (by simp [pruneErrors]) h2
      | cons a l => rfl
    have hpe : (pruneErrors now l0).isEmpty = false := by
      cases hp : pruneErrors now l0 with
      | nil => exact absurd hp h2
      | cons a l => rfl
    have hsum : sumTokens (pruneErrors now l0) = (pruneErrors now l0).length :=
      sumTokens_eq_length (fun e he => h1 e (mem_of_mem_pruneErrors he))
    unfold is_error_limited
    rw [hl]
    simp only [hne, Bool.false_eq_true, if_false, hpe, hsum]
    rw [Nat.mul_comm 10 (pruneErrors now l0).length]
    by_cases hlt : now < maxTs (pruneErrors now l0)
        + min ((pruneErrors now l0).length * 10) 1440 * 60
    · simp [hlt]
    · simp [hlt]

/-- Closed instance of C3: one ledger entry at t = 0 with count 1, observed
at `now = 60` s; the provider is limited (60 < 0 + 10 min) with 9 whole
minutes remaining. -/
theorem C3_error_state_witness :
    (∀ e ∈ viewErrors (⟨[], [("p1", [(0, 1)])]⟩ : LimiterState) "p1", e.2 = 1)
    ∧ pruneErrors 60 (viewErrors (⟨[], [("p1", [(0, 1)])]⟩ : LimiterState) "p1") ≠ []
    ∧ (((is_error_limited (⟨[], [("p1", [(0, 1)])]⟩ : LimiterState) "p1" 60).1.1 = true ↔
        60 < maxTs (pruneErrors 60 (viewErrors (⟨[], [("p1", [(0, 1)])]⟩ : LimiterState) "p1"))
          + min (10 * (pruneErrors 60 (viewErrors (⟨[], [("p1", [(0, 1)])]⟩ : LimiterState) "p1")).length) 1440 * 60)
       ∧ ((is_error_limited (⟨[], [("p1", [(0, 1)])]⟩ : LimiterState) "p1" 60).1.1 = true →
          (is_error_limited (⟨[], [("p1", [(0, 1)])]⟩ : LimiterState) "p1" 60).1.2 =
            (maxTs (pruneErrors 60 (viewErrors (⟨[], [("p1", [(0, 1)])]⟩ : LimiterState) "p1"))
              + min (10 * (pruneErrors 60 (viewErrors (⟨[], [("p1", [(0, 1)])]⟩ : LimiterState) "p1")).length) 1440 * 60
              - 60) / 60)) :=
  ⟨by decide, by decide,
   C3_error_state_characterisation (⟨[], [("p1", [(0, 1)])]⟩ : LimiterState) "p1" 60
     (by decide) (by decide)⟩

end Gateway

namespace Gateway

/-- Counterexample to C6 as stated: a provider that is error-limited (one
error at t = 0, observed at now = 60 s, so limited with 9 minutes remaining)
is nonetheless ACCEPTED by `check_limit` — the admission function performs no
error check at all and never produces an `error_limited:{minutes}` reason;
the reason string does not exist in the code. -/
theorem C6_counterexample_admit_ignores_error_state :
    (is_error_limited (⟨[], [("p1", [(0, 1)])]⟩ : LimiterState) "p1" 60).1 = (true, 9)
    ∧ (check_limit (⟨[], [("p1", [(0, 1)])]⟩ : LimiterState) "p1"
        ⟨some 5, some 1000, some 100, some 50⟩ 0 60).1 = (true, "") :=
  ⟨rfl, rfl⟩

/-- C6 as amended: the error-penalty exclusion lives in the selector, not in
`check_limit`.  When a provider is error-limited, `get_api_provider` skips it
before any rpm/tpm/tpr/rpd check runs — for a model bound only to that
provider the selection fails with HTTP 429, the state is touched only by the
error-ledger pruning of `is_error_limited`, and the rate counters are never
consulted or created. -/
theorem C6_amended_selector_skips_before_rate_checks (st : LimiterState)
    (p : String) (lims : Limits) (tc now : Nat)
    (h : (is_error_limited st p now).1.1 = true) :
    get_api_provider ⟨[(p, lims)], [("m", [(p, true)])]⟩ "m" tc st now
      = (.httpError 429, (is_error_limited st p now).2)
    ∧ ((is_error_limited st p now).2).counters = st.counters := by
  refine ⟨?_, is_error_limited_counters st p now⟩
  unfold get_api_provider providerLoop lookupA
  simp [h, providerLoop]

/-- Closed instance of the amended C6: with the ledger of the counterexample
the single-binding selection returns 429 and leaves the rate counters
untouched. -/
theorem C6_amended_witness :
    (is_error_limited (⟨[], [("p1", [(0, 1)])]⟩ : LimiterState) "p1" 60).1.1 = true
    ∧ (get_api_provider ⟨[("p1", ⟨some 5, none, none, none⟩)], [("m", [("p1", true)])]⟩
          "m" 0 (⟨[], [("p1", [(0, 1)])]⟩ : LimiterState) 60
        = (.httpError 429,
           (is_error_limited (⟨[], [("p1", [(0, 1)])]⟩ : LimiterState) "p1" 60).2)
       ∧ ((is_error_limited (⟨[], [("p1", [(0, 1)])]⟩ : LimiterState) "p1" 60).2).counters
          = (⟨[], [("p1", [(0, 1)])]⟩ : LimiterState).counters) :=
  ⟨rfl,
   C6_amended_selector_skips_before_rate_checks
     (⟨[], [("p1", [(0, 1)])]⟩ : LimiterState) "p1"
     ⟨some 5, none, none, none⟩ 0 60 rfl⟩

/-- Counterexample to C9 as stated: a buffered request whose body is valid
JSON but lacks `model` is treated as `model = ""`; with `""` not configured,
`get_api_provider` raises `HTTPException(404)` (unknown model), which the
route re-raises — the client receives 404, not the claimed 500. -/
theorem C9_counterexample_missing_model_404 :
    (handle_post_select ⟨[("P1", ⟨none, none, none, none⟩)], [("m1", [("P1", true)])]⟩
        (.jsonBody none false) 0 (⟨[], []⟩ : LimiterState) 0).1 = .httpError 404
    ∧ (handle_post_select ⟨[("P1", ⟨none, none, none, none⟩)], [("m1", [("P1", true)])]⟩
        (.jsonBody none false) 0 (⟨[], []⟩ : LimiterState) 0).1 ≠ .httpError 500 :=
  ⟨rfl, by decide⟩

/-- C9 as amended: a body that is not valid JSON yields HTTP 500 (the
`JSONDecodeError` is caught by the blanket `except Exception`), while a valid
JSON body lacking `model` defaults the model to `""` and — whenever `""` is
not a configured model name — yields HTTP 404 via the unknown-model branch of
`get_api_provider`, with the limiter state untouched in both cases. -/
theorem C9_amended_malformed_request (cfg : Config) (tc now : Nat)
    (st : LimiterState) (stream : Bool)
    (h : lookupA cfg.modelConfig "" = none) :
    handle_post_select cfg .invalidJson tc st now = (.httpError 500, st)
    ∧ handle_post_select cfg (.jsonBody none stream) tc st now
        = (.httpError 404, st) := by
  constructor
  · rfl
  · have hs : strStartsWith "" "auto" = false := rfl
    unfold handle_post_select
    simp [hs, get_api_provider, h]

/-- Closed instance of the amended C9 at a one-model configuration. -/
theorem C9_amended_witness :
    lookupA (Config.mk [("P1", ⟨none, none, none, none⟩)]
        [("m1", [("P1", true)])]).modelConfig "" = none
    ∧ (handle_post_select ⟨[("P1", ⟨none, none, none, none⟩)], [("m1", [("P1", true)])]⟩
          .invalidJson 0 (⟨[], []⟩ : LimiterState) 0
        = (.httpError 500, (⟨[], []⟩ : LimiterState))
       ∧ handle_post_select ⟨[("P1", ⟨none, none, none, none⟩)], [("m1", [("P1", true)])]⟩
          (.jsonBody none false) 0 (⟨[], []⟩ : LimiterState) 0
        = (.httpError 404, (⟨[], []⟩ : LimiterState))) :=
  ⟨rfl,
   C9_amended_malformed_request
     ⟨[("P1", ⟨none, none, none, none⟩)], [("m1", [("P1", true)])]⟩
     0 0 (⟨[], []⟩ : LimiterState) false rfl⟩

end Gateway
